import Mathlib

/-!
Verification of the window-phased decision-and-settlement state machine of
the Polymarket maker bot paper trader (src/bot.py), shallowly embedded in
Lean 4. Monetary and price values are modelled as rationals; the fixed
4-decimal rounding of src/bot.py (Python round to 4 places) is modelled by
rounding to the nearest multiple of 1/10000.
-/

namespace MakerBot

/-- Configuration constant WINDOW_SECONDS from src/bot.py line 22. -/
def WINDOW_SECONDS : ℚ := 300

/-- Configuration constant SIGNAL_OFFSET from src/bot.py line 23. -/
def SIGNAL_OFFSET : ℚ := 10

/-- Configuration constant MIN_MOVE_USD from src/bot.py line 24. -/
def MIN_MOVE_USD : ℚ := 5

/-- Configuration constant ENTRY_PRICE from src/bot.py line 25. -/
def ENTRY_PRICE : ℚ := 92 / 100

/-- Configuration constant ORDER_SIZE_USD from src/bot.py line 26. -/
def ORDER_SIZE_USD : ℚ := 10

/-- Configuration constant MAKER_REBATE from src/bot.py line 27. -/
def MAKER_REBATE : ℚ := 5 / 1000

/-- Configuration constant INITIAL_BALANCE from src/bot.py line 28. -/
def INITIAL_BALANCE : ℚ := 100

/-- Rounding to 4 decimal places, modelling Python round(x, 4) in bot.py. -/
def round4 (q : ℚ) : ℚ := (round (q * 10000) : ℚ) / 10000

/-- Bet direction, the direction_bet column of bot.py ("UP", "DOWN", "NONE"). -/
inductive Direction where
  | UP
  | DOWN
  | NONE
deriving DecidableEq, Repr

/-- Window outcome, the outcome column of bot.py ("WIN", "LOSS", "SKIP"). -/
inductive Outcome where
  | WIN
  | LOSS
  | SKIP
deriving DecidableEq, Repr

/-- The decision logic of market_loop (bot.py lines 155-179): skip when the
move is below MIN_MOVE_USD, otherwise bet UP when the move is positive, and
DOWN otherwise. The threshold is a parameter so the decision can be studied
for any configured minimum move. -/
def decideBet (openP signalP minMove : ℚ) : Direction :=
  let move := signalP - openP
  if |move| < minMove then Direction.NONE
  else if move > 0 then Direction.UP
  else Direction.DOWN

/-- The direction chosen at bot.py line 179: UP on a positive move, DOWN
otherwise (only reached when the move passed the minimum-move check). -/
def betDirection (move : ℚ) : Direction :=
  if move > 0 then Direction.UP else Direction.DOWN

/-- The outcome logic of market_loop (bot.py lines 188-197): the actual
direction is UP only on a strictly higher close; a flat close is a LOSS,
otherwise a bet matching the actual direction is a WIN. -/
def settleOutcome (direction : Direction) (openP closeP : ℚ) : Outcome :=
  let actual := if closeP > openP then Direction.UP else Direction.DOWN
  if closeP = openP then Outcome.LOSS
  else if actual = direction then Outcome.WIN
  else Outcome.LOSS

/-- The payoff logic of market_loop (bot.py lines 180 and 199-203):
shares = ORDER_SIZE_USD / ENTRY_PRICE; a WIN pays
shares * (1 - ENTRY_PRICE) + MAKER_REBATE, a LOSS pays
-ORDER_SIZE_USD + MAKER_REBATE, each rounded to 4 decimal places. -/
def settlePnl (outcome : Outcome) : ℚ :=
  let shares := ORDER_SIZE_USD / ENTRY_PRICE
  if outcome = Outcome.WIN then round4 (shares * (1 - ENTRY_PRICE) + MAKER_REBATE)
  else round4 (-ORDER_SIZE_USD + MAKER_REBATE)

/-- One row of the trades table of bot.py (the textual timestamp column and
the autoincrement id are omitted; all other columns are kept). -/
structure TradeRecord where
  window_start : ℚ
  window_end : ℚ
  btc_open : ℚ
  btc_at_signal : ℚ
  btc_close : ℚ
  direction_bet : Direction
  entry_price : ℚ
  outcome : Outcome
  pnl : ℚ
  balance_after : ℚ
deriving DecidableEq, Repr

/-- The three price samples of one window together with its start epoch:
the inputs one iteration of market_loop reads from the price feed. -/
structure WindowInput where
  ws : ℚ
  btc_open : ℚ
  btc_at_signal : ℚ
  btc_close : ℚ
deriving DecidableEq, Repr

/-- One iteration of market_loop (bot.py lines 135-223) as a function from
the in-memory balance and the window's price samples to the recorded trade
and the new in-memory balance. On a skip (lines 157-177) the balance is
unchanged and a SKIP record carrying the current balance is produced, with
btc_close recorded as the signal price and entry_price 0. On a bet the
outcome and pnl are computed and the balance becomes
round4(balance + pnl) (line 205). -/
def stepWindow (balance : ℚ) (w : WindowInput) : TradeRecord × ℚ :=
  let move := w.btc_at_signal - w.btc_open
  if |move| < MIN_MOVE_USD then
    ({ window_start := w.ws
       window_end := w.ws + WINDOW_SECONDS
       btc_open := w.btc_open
       btc_at_signal := w.btc_at_signal
       btc_close := w.btc_at_signal
       direction_bet := Direction.NONE
       entry_price := 0
       outcome := Outcome.SKIP
       pnl := 0
       balance_after := balance }, balance)
  else
    let direction := betDirection move
    let outcome := settleOutcome direction w.btc_open w.btc_close
    let pnl := settlePnl outcome
    let balance2 := round4 (balance + pnl)
    ({ window_start := w.ws
       window_end := w.ws + WINDOW_SECONDS
       btc_open := w.btc_open
       btc_at_signal := w.btc_at_signal
       btc_close := w.btc_close
       direction_bet := direction
       entry_price := ENTRY_PRICE
       outcome := outcome
       pnl := pnl
       balance_after := balance2 }, balance2)

/-- Iterating market_loop over a list of window inputs, collecting the
recorded trades and the final in-memory balance. -/
def runWindows (balance : ℚ) : List WindowInput → List TradeRecord × ℚ
  | [] => ([], balance)
  | w :: ws =>
    let step := stepWindow balance w
    let rest := runWindows step.2 ws
    (step.1 :: rest.1, rest.2)

/-- Python float modulo with a positive divisor, as used at bot.py line 99:
a % b = a - b * floor(a / b). -/
def pymod (a b : ℚ) : ℚ := a - b * (⌊a / b⌋ : ℚ)

/-- next_window_start of bot.py lines 96-99, as a function of the current
time: now - (now % WINDOW_SECONDS) + WINDOW_SECONDS. -/
def next_window_start (t : ℚ) : ℚ := t - pymod t WINDOW_SECONDS + WINDOW_SECONDS

/-- The SQLite store of bot.py as seen by the bot: the single balance row
of the state table (absent before initialization) and the append-only rows
of the trades table. -/
structure StateStore where
  balance : Option ℚ
  trades : List TradeRecord
deriving DecidableEq, Repr

/-- init_db of bot.py lines 44-73, restricted to its state mutation: the
balance entry is inserted with INITIAL_BALANCE only when no balance row
exists (lines 69-71); an existing balance row is left untouched. -/
def init_db (s : StateStore) : StateStore :=
  match s.balance with
  | none => { s with balance := some INITIAL_BALANCE }
  | some _ => s

/-- set_balance of bot.py lines 80-82: update the balance row and commit. -/
def set_balance (s : StateStore) (b : ℚ) : StateStore :=
  { s with balance := some b }

/-- record_trade of bot.py lines 85-92: insert one trades row and commit. -/
def record_trade (s : StateStore) (r : TradeRecord) : StateStore :=
  { s with trades := s.trades ++ [r] }

/-- The durable snapshots the store passes through while a settled bet
window is persisted by market_loop: set_balance commits first (bot.py line
206), record_trade commits second (line 211). Each call issues its own
SQLite commit, so both listed snapshots are durable states an interruption
can leave behind. -/
def settlementCommitStates (s : StateStore) (r : TradeRecord) (newBal : ℚ) :
    List StateStore :=
  [set_balance s newBal, record_trade (set_balance s newBal) r]

/-- A durable snapshot d reflects the settlement (r, newBal) of store s
atomically when it shows both the new balance and the appended record, or
shows neither (it still equals s). -/
def atomicSnapshot (s d : StateStore) (r : TradeRecord) (newBal : ℚ) : Prop :=
  (d.balance = some newBal ∧ d.trades = s.trades ++ [r]) ∨ d = s

/-- The record and the new balance produced by one concrete losing bet
window: open 50000, signal 49990, close 50000, starting balance 100. -/
def exSettle : TradeRecord × ℚ := stepWindow 100 ⟨0, 50000, 49990, 50000⟩

/-- A concrete durable store before settlement: balance 100, no trades. -/
def exStore : StateStore := ⟨some 100, []⟩

/-- The signal instant of a window (bot.py line 149):
window_start + window length - signal offset, with the two timing
constants as parameters of the configuration surface. -/
def signal_time (wstart wsec off : ℚ) : ℚ := wstart + wsec - off

/-- The startup sequence of run() (bot.py lines 107-110): initialize the
store, then read the balance. The code never validates the configuration
constants, so startup receives the configured window length and signal
offset and ignores both: no configuration-error path exists. -/
def runStartup (_wsec _off : ℚ) (s : StateStore) : Option (StateStore × ℚ) :=
  let s2 := init_db s
  match s2.balance with
  | some b => some (s2, b)
  | none => none

/-- Helper: init_db always leaves a balance row present. -/
lemma init_db_balance_isSome (s : StateStore) :
    ∃ b : ℚ, (init_db s).balance = some b := by
  cases h : s.balance <;> simp [init_db, h]

/-- Helper: settlePnl on a WIN is the rounded win payoff. -/
lemma settlePnl_WIN :
    settlePnl Outcome.WIN =
      round4 (ORDER_SIZE_USD / ENTRY_PRICE * (1 - ENTRY_PRICE) + MAKER_REBATE) := by
  simp [settlePnl]

/-- Helper: settlePnl on anything other than a WIN is the rounded loss payoff. -/
lemma settlePnl_ne_WIN (oc : Outcome) (h : oc ≠ Outcome.WIN) :
    settlePnl oc = round4 (-ORDER_SIZE_USD + MAKER_REBATE) := by
  simp [settlePnl, h]

/-- C2: the claim as stated is false on the code. For min_move = 0 and
signal_price = open_price (move = 0), the decision is DOWN, not SKIP: the
code's else-branch ternary (bot.py line 179) sends a zero move to DOWN. -/
theorem C2_counterexample :
    decideBet 50000 50000 0 = Direction.DOWN ∧
    decideBet 50000 50000 0 ≠ Direction.NONE := by
  have h : decideBet 50000 50000 0 = Direction.DOWN := by norm_num [decideBet]
  exact ⟨h, by rw [h]; intro hc; cases hc⟩

/-- C2 (amended): the decision is fully determined by
(open_price, signal_price, min_move): below the threshold the result is
SKIP (NONE); at or above the threshold the result is UP on a positive move
and DOWN on a negative move; and when min_move = 0 and move = 0 the result
is DOWN, not SKIP. -/
theorem C2_decide_amended (o s m : ℚ) :
    (|s - o| < m → decideBet o s m = Direction.NONE) ∧
    (m ≤ |s - o| →
      (0 < s - o → decideBet o s m = Direction.UP) ∧
      (s - o < 0 → decideBet o s m = Direction.DOWN) ∧
      (s - o = 0 → decideBet o s m = Direction.DOWN)) := by
  simp only [decideBet]
  constructor
  · intro h
    rw [if_pos h]
  · intro h
    have hnot : ¬ |s - o| < m := not_lt.mpr h
    refine ⟨fun hp => ?_, fun hn => ?_, fun hz => ?_⟩
    · rw [if_neg hnot, if_pos hp]
    · rw [if_neg hnot, if_neg (not_lt.mpr hn.le)]
    · rw [if_neg hnot, hz]
      norm_num

/-- Witness for C2_decide_amended at concrete inputs. -/
theorem C2_decide_amended_witness :
    decideBet 50000 50010 5 = Direction.UP ∧
    decideBet 50000 50000 0 = Direction.DOWN :=
  ⟨((C2_decide_amended 50000 50010 5).2 (by norm_num)).1 (by norm_num),
   ((C2_decide_amended 50000 50000 0).2 (by norm_num)).2.2 (by norm_num)⟩

/-- C3: a flat close (close_price = open_price) settles as LOSS for every
bet direction (bot.py lines 191-193): never a win, push, or refund. -/
theorem C3_flat_close_is_loss (d : Direction) (o : ℚ) :
    settleOutcome d o o = Outcome.LOSS := by
  simp [settleOutcome]

/-- C4: for every settled bet window, the pnl recorded is
round4(shares * (1 - entry) + rebate) with shares = order_size / entry on a
WIN and round4(-order_size + rebate) on a LOSS, and the rounded pnl is then
applied to the balance (bot.py lines 180, 199-205). -/
theorem C4_payoff (b : ℚ) (w : WindowInput)
    (h : ¬ |w.btc_at_signal - w.btc_open| < MIN_MOVE_USD) :
    ((stepWindow b w).1.outcome = Outcome.WIN →
      (stepWindow b w).1.pnl =
        round4 (ORDER_SIZE_USD / ENTRY_PRICE * (1 - ENTRY_PRICE) + MAKER_REBATE)) ∧
    ((stepWindow b w).1.outcome = Outcome.LOSS →
      (stepWindow b w).1.pnl = round4 (-ORDER_SIZE_USD + MAKER_REBATE)) ∧
    (stepWindow b w).2 = round4 (b + (stepWindow b w).1.pnl) := by
  simp only [stepWindow, if_neg h]
  cases hoc : settleOutcome (betDirection (w.btc_at_signal - w.btc_open))
      w.btc_open w.btc_close <;>
    simp [settlePnl_WIN, settlePnl_ne_WIN]

/-- Witness for C4_payoff at the concrete scenario open 50000, signal
50010, close 50050 with balance 100. -/
theorem C4_payoff_witness :
    (¬ |(50010 : ℚ) - 50000| < MIN_MOVE_USD) ∧
    (((stepWindow 100 ⟨0, 50000, 50010, 50050⟩).1.outcome = Outcome.WIN →
      (stepWindow 100 ⟨0, 50000, 50010, 50050⟩).1.pnl =
        round4 (ORDER_SIZE_USD / ENTRY_PRICE * (1 - ENTRY_PRICE) + MAKER_REBATE)) ∧
    ((stepWindow 100 ⟨0, 50000, 50010, 50050⟩).1.outcome = Outcome.LOSS →
      (stepWindow 100 ⟨0, 50000, 50010, 50050⟩).1.pnl =
        round4 (-ORDER_SIZE_USD + MAKER_REBATE)) ∧
    (stepWindow 100 ⟨0, 50000, 50010, 50050⟩).2 =
      round4 (100 + (stepWindow 100 ⟨0, 50000, 50010, 50050⟩).1.pnl)) :=
  ⟨by norm_num [MIN_MOVE_USD],
   C4_payoff 100 ⟨0, 50000, 50010, 50050⟩ (by norm_num [MIN_MOVE_USD])⟩

/-- C5: the claim's numeric value is false on the code. At open 50000,
signal 50010, close 50050 under the default configuration the bet is UP and
the outcome WIN, but the pnl is round4((10/0.92)*0.08 + 0.005) = 0.8746,
not 0.8752 as the claim states. -/
theorem C5_counterexample :
    (stepWindow 100 ⟨0, 50000, 50010, 50050⟩).1.direction_bet = Direction.UP ∧
    (stepWindow 100 ⟨0, 50000, 50010, 50050⟩).1.outcome = Outcome.WIN ∧
    (stepWindow 100 ⟨0, 50000, 50010, 50050⟩).1.pnl = 8746 / 10000 ∧
    (8746 : ℚ) / 10000 ≠ 8752 / 10000 := by
  norm_num [stepWindow, betDirection, settleOutcome, settlePnl, round4, round_eq,
    MIN_MOVE_USD, ORDER_SIZE_USD, ENTRY_PRICE, MAKER_REBATE]

/-- C5 (amended): under the default configuration, open 50000 and signal
50010 give decision UP, and close 50050 gives outcome WIN with
pnl = round4((10/0.92)*0.08 + 0.005) = 0.8746 after rounding to 4 decimal
places. -/
theorem C5_scenario1_amended :
    (stepWindow 100 ⟨0, 50000, 50010, 50050⟩).1.direction_bet = Direction.UP ∧
    (stepWindow 100 ⟨0, 50000, 50010, 50050⟩).1.outcome = Outcome.WIN ∧
    (stepWindow 100 ⟨0, 50000, 50010, 50050⟩).1.pnl =
      round4 (ORDER_SIZE_USD / ENTRY_PRICE * (1 - ENTRY_PRICE) + MAKER_REBATE) ∧
    round4 (ORDER_SIZE_USD / ENTRY_PRICE * (1 - ENTRY_PRICE) + MAKER_REBATE) =
      8746 / 10000 := by
  norm_num [stepWindow, betDirection, settleOutcome, settlePnl, round4, round_eq,
    MIN_MOVE_USD, ORDER_SIZE_USD, ENTRY_PRICE, MAKER_REBATE]

/-- C6: the claim's boundary case is false on the code. At t = 300, which
is exactly on a window boundary (t mod WINDOW_SECONDS = 0),
next_window_start returns 600 = t + WINDOW_SECONDS, not t itself. -/
theorem C6_counterexample :
    pymod 300 WINDOW_SECONDS = 0 ∧
    next_window_start 300 = 600 ∧
    next_window_start 300 ≠ 300 := by
  norm_num [pymod, next_window_start, WINDOW_SECONDS]

/-- C6 (amended): for every time t, next_window_start t is an integer
multiple of WINDOW_SECONDS and strictly greater than t; in particular when
t is exactly on a boundary the result is t + WINDOW_SECONDS, not t. -/
theorem C6_alignment_amended (t : ℚ) :
    (∃ k : ℤ, next_window_start t = (k : ℚ) * WINDOW_SECONDS) ∧
    t < next_window_start t ∧
    (pymod t WINDOW_SECONDS = 0 → next_window_start t = t + WINDOW_SECONDS) := by
  unfold next_window_start pymod WINDOW_SECONDS
  refine ⟨⟨⌊t / 300⌋ + 1, by push_cast; ring⟩, ?_, fun hz => by linarith⟩
  have h2 : t / 300 < (⌊t / 300⌋ : ℚ) + 1 := Int.lt_floor_add_one _
  have h3 : t < ((⌊t / 300⌋ : ℚ) + 1) * 300 :=
    (div_lt_iff₀ (by norm_num : (0 : ℚ) < 300)).mp h2
  linarith

/-- Witness for C6_alignment_amended at the boundary instant t = 300. -/
theorem C6_alignment_amended_witness :
    pymod 300 WINDOW_SECONDS = 0 ∧
    next_window_start 300 = 300 + WINDOW_SECONDS :=
  ⟨by norm_num [pymod, WINDOW_SECONDS],
   (C6_alignment_amended 300).2.2 (by norm_num [pymod, WINDOW_SECONDS])⟩

/-- C1: the claim is false on the code. Settlement persistence is two
separately committed writes, so after the first commit (set_balance, bot.py
line 206) and before the second (record_trade, line 211) the durable store
shows the new balance 90.005 while the matching record is absent: a
reachable durable snapshot that is not atomic. -/
theorem C1_counterexample :
    set_balance exStore exSettle.2 ∈
      settlementCommitStates exStore exSettle.1 exSettle.2 ∧
    (set_balance exStore exSettle.2).balance = some (18001 / 200) ∧
    exStore.balance = some 100 ∧
    (18001 : ℚ) / 200 ≠ 100 ∧
    (set_balance exStore exSettle.2).trades = [] ∧
    ¬ atomicSnapshot exStore (set_balance exStore exSettle.2)
        exSettle.1 exSettle.2 := by
  have hmove : ¬ |(49990 : ℚ) - 50000| < MIN_MOVE_USD := by
    norm_num [MIN_MOVE_USD]
  have hdir : betDirection ((49990 : ℚ) - 50000) = Direction.DOWN := by
    norm_num [betDirection]
  have hoc : settleOutcome Direction.DOWN 50000 50000 = Outcome.LOSS := by
    simp [settleOutcome]
  have hpnl : settlePnl Outcome.LOSS = -(1999 / 200) := by
    rw [settlePnl_ne_WIN Outcome.LOSS (by simp)]
    norm_num [round4, round_eq, ORDER_SIZE_USD, MAKER_REBATE]
  have hbal : exSettle.2 = 18001 / 200 := by
    simp only [exSettle, stepWindow, if_neg hmove, hdir, hoc, hpnl]
    norm_num [round4, round_eq]
  refine ⟨by simp [settlementCommitStates], by rw [hbal]; rfl, rfl,
    by norm_num, rfl, ?_⟩
  intro hatomic
  rcases hatomic with ⟨_, htr⟩ | hsame
  · simp [set_balance, exStore] at htr
  · have hb : (set_balance exStore exSettle.2).balance = exStore.balance := by
      rw [hsame]
    rw [hbal] at hb
    simp only [set_balance, exStore, Option.some.injEq] at hb
    norm_num at hb

/-- C1 (amended): settlement persistence is not a single atomic unit but
two separately committed writes, balance first and record second. Every
reachable durable snapshot already carries the new balance, and its trades
are either unchanged or extended by exactly the matching record: the new
balance can be observed without the record, while a record without its
balance update can never be observed. -/
theorem C1_commit_order_amended (s : StateStore) (r : TradeRecord) (b : ℚ) :
    ∀ d ∈ settlementCommitStates s r b,
      d.balance = some b ∧
      (d.trades = s.trades ∨ d.trades = s.trades ++ [r]) := by
  intro d hd
  simp only [settlementCommitStates, List.mem_cons, List.not_mem_nil,
    or_false] at hd
  rcases hd with h | h <;> subst h <;> simp [set_balance, record_trade]

/-- Witness for C1_commit_order_amended at the concrete first snapshot. -/
theorem C1_commit_order_amended_witness :
    set_balance exStore exSettle.2 ∈
      settlementCommitStates exStore exSettle.1 exSettle.2 ∧
    ((set_balance exStore exSettle.2).balance = some exSettle.2 ∧
      ((set_balance exStore exSettle.2).trades = exStore.trades ∨
       (set_balance exStore exSettle.2).trades = exStore.trades ++ [exSettle.1])) :=
  have hmem : set_balance exStore exSettle.2 ∈
      settlementCommitStates exStore exSettle.1 exSettle.2 := by
    simp [settlementCommitStates]
  ⟨hmem, C1_commit_order_amended exStore exSettle.1 exSettle.2 _ hmem⟩

/-- C8: ledger initialization is idempotent: init_db creates the balance
entry with INITIAL_BALANCE only when no balance entry exists, never changes
an existing balance, and running it twice equals running it once. -/
theorem C8_init_idempotent :
    (∀ s : StateStore, s.balance = none →
      init_db s = { s with balance := some INITIAL_BALANCE }) ∧
    (∀ (s : StateStore) (b : ℚ), s.balance = some b → init_db s = s) ∧
    (∀ s : StateStore, init_db (init_db s) = init_db s) := by
  refine ⟨fun s h => ?_, fun s b h => ?_, fun s => ?_⟩
  · simp [init_db, h]
  · simp [init_db, h]
  · cases h : s.balance <;> simp [init_db, h]

/-- Witness for C8_init_idempotent on an empty store and a stored balance
of 42. -/
theorem C8_init_idempotent_witness :
    (⟨none, []⟩ : StateStore).balance = none ∧
    init_db ⟨none, []⟩ = ⟨some INITIAL_BALANCE, []⟩ ∧
    (⟨some 42, []⟩ : StateStore).balance = some 42 ∧
    init_db ⟨some 42, []⟩ = ⟨some 42, []⟩ :=
  ⟨rfl, C8_init_idempotent.1 ⟨none, []⟩ rfl, rfl,
   C8_init_idempotent.2.1 ⟨some 42, []⟩ 42 rfl⟩

/-- C9: the claim is false on the code. With window length 300 and signal
offset 300 (offset not below window length) startup still succeeds,
returning an initialized store and the initial balance instead of failing
fast, and the window's signal instant coincides with its start. -/
theorem C9_counterexample :
    (300 : ℚ) ≤ 300 ∧
    runStartup 300 300 ⟨none, []⟩ =
      some (⟨some INITIAL_BALANCE, []⟩, INITIAL_BALANCE) ∧
    signal_time 0 300 300 = 0 := by
  refine ⟨le_refl _, ?_, by norm_num [signal_time]⟩
  simp [runStartup, init_db]

/-- C9 (amended): the code performs no configuration validation at all:
startup succeeds for every window length and signal offset, and whenever
the signal offset is at least the window length the signal instant of each
window falls at or before the window's start and the loop proceeds with it
silently. -/
theorem C9_no_validation_amended (wsec off : ℚ) (s : StateStore) :
    (∃ b : ℚ, runStartup wsec off s = some (init_db s, b)) ∧
    (wsec ≤ off → ∀ wstart : ℚ, signal_time wstart wsec off ≤ wstart) := by
  constructor
  · obtain ⟨b, hb⟩ := init_db_balance_isSome s
    exact ⟨b, by simp [runStartup, hb]⟩
  · intro h wstart
    simp only [signal_time]
    linarith

/-- Witness for C9_no_validation_amended at the degenerate configuration
window length 300, signal offset 300. -/
theorem C9_no_validation_amended_witness :
    (∃ b : ℚ, runStartup 300 300 ⟨none, []⟩ =
      some (init_db ⟨none, []⟩, b)) ∧
    ((300 : ℚ) ≤ 300 ∧ signal_time 0 300 300 ≤ 0) :=
  ⟨(C9_no_validation_amended 300 300 ⟨none, []⟩).1,
   le_refl _,
   (C9_no_validation_amended 300 300 ⟨none, []⟩).2 (le_refl _) 0⟩

/-- A rational amount is 4-decimal when it is an integer multiple of
1/10000. Every value produced by round4 is one, and so are the configured
INITIAL_BALANCE and every balance the loop ever holds. -/
def Q4 (q : ℚ) : Prop := ∃ k : ℤ, q = (k : ℚ) / 10000

/-- Helper: round4 always lands on a 4-decimal amount. -/
lemma Q4_round4 (q : ℚ) : Q4 (round4 q) := ⟨round (q * 10000), rfl⟩

/-- Helper: round4 fixes every 4-decimal amount. -/
lemma round4_eq_self (q : ℚ) (h : Q4 q) : round4 q = q := by
  obtain ⟨k, rfl⟩ := h
  unfold round4
  rw [div_mul_cancel₀ _ (by norm_num : (10000 : ℚ) ≠ 0), round_intCast]

/-- Helper: 4-decimal amounts are closed under addition. -/
lemma Q4_add (a b : ℚ) (ha : Q4 a) (hb : Q4 b) : Q4 (a + b) := by
  obtain ⟨j, rfl⟩ := ha
  obtain ⟨k, rfl⟩ := hb
  exact ⟨j + k, by push_cast; ring⟩

/-- Helper: every pnl settlePnl produces is a 4-decimal amount. -/
lemma Q4_settlePnl (oc : Outcome) : Q4 (settlePnl oc) := by
  unfold settlePnl
  split_ifs <;> exact Q4_round4 _

/-- Helper: a window whose move is below the threshold is recorded as a
SKIP with pnl 0 and leaves the balance unchanged. -/
lemma stepWindow_skip (b : ℚ) (w : WindowInput)
    (h : |w.btc_at_signal - w.btc_open| < MIN_MOVE_USD) :
    (stepWindow b w).1.outcome = Outcome.SKIP ∧
    (stepWindow b w).1.pnl = 0 ∧ (stepWindow b w).2 = b := by
  simp [stepWindow, if_pos h]

/-- Helper: the record's balance_after always equals the new in-memory
balance returned by stepWindow. -/
lemma stepWindow_balance_after (b : ℚ) (w : WindowInput) :
    (stepWindow b w).1.balance_after = (stepWindow b w).2 := by
  simp only [stepWindow]
  split_ifs <;> rfl

/-- Helper: on a 4-decimal balance, one window step moves the balance by
exactly the recorded pnl, and the new balance is again 4-decimal. -/
lemma stepWindow_balance (b : ℚ) (w : WindowInput) (hb : Q4 b) :
    (stepWindow b w).2 = b + (stepWindow b w).1.pnl ∧ Q4 (stepWindow b w).2 := by
  by_cases h : |w.btc_at_signal - w.btc_open| < MIN_MOVE_USD
  · obtain ⟨_, hp, hbal⟩ := stepWindow_skip b w h
    rw [hp, hbal, add_zero]
    exact ⟨rfl, hb⟩
  · have hq : Q4 (settlePnl (settleOutcome
        (betDirection (w.btc_at_signal - w.btc_open)) w.btc_open w.btc_close)) :=
      Q4_settlePnl _
    have hsum := Q4_add _ _ hb hq
    have hfix := round4_eq_self _ hsum
    simp only [stepWindow, if_neg h]
    exact ⟨hfix, Q4_round4 _⟩

/-- Helper: over any window list starting from a 4-decimal balance, the
final balance is the initial balance plus the sum of the recorded pnl
values, and it is again 4-decimal. -/
lemma runWindows_balance (ws : List WindowInput) : ∀ b : ℚ, Q4 b →
    (runWindows b ws).2 = b + (((runWindows b ws).1).map TradeRecord.pnl).sum ∧
    Q4 (runWindows b ws).2 := by
  induction ws with
  | nil =>
    intro b hb
    exact ⟨by simp [runWindows], hb⟩
  | cons w ws ih =>
    intro b hb
    obtain ⟨h1, h2⟩ := stepWindow_balance b w hb
    obtain ⟨ih1, ih2⟩ := ih (stepWindow b w).2 h2
    refine ⟨?_, ih2⟩
    simp only [runWindows, List.map_cons, List.sum_cons]
    rw [ih1, h1]
    ring

/-- C7: balance continuity. A below-threshold window is a SKIP leaving the
balance unchanged with pnl 0; every settlement from a 4-decimal balance
satisfies new balance = old balance + pnl exactly; and over any window
sequence from a 4-decimal initial balance the sum of the recorded pnl
values equals final balance minus initial balance. -/
theorem C7_balance_continuity :
    (∀ (b : ℚ) (w : WindowInput), |w.btc_at_signal - w.btc_open| < MIN_MOVE_USD →
      (stepWindow b w).2 = b ∧ (stepWindow b w).1.pnl = 0) ∧
    (∀ (b : ℚ) (w : WindowInput), Q4 b →
      (stepWindow b w).2 = b + (stepWindow b w).1.pnl) ∧
    (∀ (b : ℚ) (ws : List WindowInput), Q4 b →
      (((runWindows b ws).1).map TradeRecord.pnl).sum = (runWindows b ws).2 - b) := by
  refine ⟨fun b w h => ?_, fun b w hb => (stepWindow_balance b w hb).1,
    fun b ws hb => ?_⟩
  · obtain ⟨_, hp, hbal⟩ := stepWindow_skip b w h
    exact ⟨hbal, hp⟩
  · have := (runWindows_balance ws b hb).1
    linarith

/-- Witness for C7_balance_continuity: a skip window at balance 100, and a
two-window sequence (one skip, one losing bet) from balance 100. -/
theorem C7_balance_continuity_witness :
    (|(50002 : ℚ) - 50000| < MIN_MOVE_USD) ∧ Q4 100 ∧
    ((stepWindow 100 ⟨0, 50000, 50002, 50002⟩).2 = 100 ∧
      (stepWindow 100 ⟨0, 50000, 50002, 50002⟩).1.pnl = 0) ∧
    (stepWindow 100 ⟨0, 50000, 49990, 50000⟩).2 =
      100 + (stepWindow 100 ⟨0, 50000, 49990, 50000⟩).1.pnl ∧
    (((runWindows 100 [⟨0, 50000, 50002, 50002⟩, ⟨300, 50000, 49990, 50000⟩]).1).map
        TradeRecord.pnl).sum =
      (runWindows 100 [⟨0, 50000, 50002, 50002⟩, ⟨300, 50000, 49990, 50000⟩]).2 - 100 :=
  have hq : Q4 100 := ⟨1000000, by norm_num⟩
  have hm : |(50002 : ℚ) - 50000| < MIN_MOVE_USD := by norm_num [MIN_MOVE_USD]
  ⟨hm, hq,
   C7_balance_continuity.1 100 ⟨0, 50000, 50002, 50002⟩ hm,
   C7_balance_continuity.2.1 100 ⟨0, 50000, 49990, 50000⟩ hq,
   C7_balance_continuity.2.2 100
     [⟨0, 50000, 50002, 50002⟩, ⟨300, 50000, 49990, 50000⟩] hq⟩

/-- One full iteration of market_loop acting on the durable store together
with the in-memory balance. A SKIP window only appends its record (bot.py
lines 160-172) and leaves the stored balance alone; a bet window writes the
new balance (line 206) and then appends the record carrying the same value
(lines 211-223). -/
def loopStep (s : StateStore) (mem : ℚ) (w : WindowInput) : StateStore × ℚ :=
  let step := stepWindow mem w
  if step.1.outcome = Outcome.SKIP then (record_trade s step.1, step.2)
  else (record_trade (set_balance s step.2) step.1, step.2)

/-- market_loop iterated over a list of window inputs, threading the
durable store and the in-memory balance. -/
def runLoop (s : StateStore) (mem : ℚ) : List WindowInput → StateStore × ℚ
  | [] => (s, mem)
  | w :: ws => runLoop (loopStep s mem w).1 (loopStep s mem w).2 ws

/-- Helper: settleOutcome never produces SKIP. -/
lemma settleOutcome_ne_SKIP (d : Direction) (o c : ℚ) :
    settleOutcome d o c ≠ Outcome.SKIP := by
  cases d <;> unfold settleOutcome <;> split_ifs <;> simp

/-- Helper: a SKIP step leaves the in-memory balance unchanged. -/
lemma stepWindow_SKIP_balance (mem : ℚ) (w : WindowInput)
    (h : (stepWindow mem w).1.outcome = Outcome.SKIP) :
    (stepWindow mem w).2 = mem := by
  by_cases hm : |w.btc_at_signal - w.btc_open| < MIN_MOVE_USD
  · exact (stepWindow_skip mem w hm).2.2
  · exfalso
    simp only [stepWindow, if_neg hm] at h
    exact settleOutcome_ne_SKIP _ _ _ h

/-- Helper: when the store balance matches the in-memory balance, one loop
iteration keeps them matched and appends a record whose balance_after is
the new in-memory balance. -/
lemma loopStep_inv (s : StateStore) (mem : ℚ) (w : WindowInput)
    (h : s.balance = some mem) :
    (loopStep s mem w).1.balance = some (loopStep s mem w).2 ∧
    (loopStep s mem w).1.trades =
      s.trades ++ [(stepWindow mem w).1] ∧
    (stepWindow mem w).1.balance_after = (loopStep s mem w).2 := by
  simp only [loopStep]
  split_ifs with hoc
  · have hb := stepWindow_SKIP_balance mem w hoc
    refine ⟨?_, rfl, ?_⟩
    · simp only [record_trade, hb]
      exact h
    · rw [stepWindow_balance_after, hb]
  · exact ⟨rfl, rfl, stepWindow_balance_after mem w⟩

/-- Helper: the loop invariant over any window list: stored balance equals
the in-memory balance, and after at least one window the last appended
record's balance_after equals both. -/
lemma runLoop_inv (ws : List WindowInput) : ∀ (s : StateStore) (mem : ℚ),
    s.balance = some mem →
    (runLoop s mem ws).1.balance = some (runLoop s mem ws).2 ∧
    (ws ≠ [] → ∃ r : TradeRecord,
      (runLoop s mem ws).1.trades.getLast? = some r ∧
      r.balance_after = (runLoop s mem ws).2) := by
  induction ws with
  | nil =>
    intro s mem h
    exact ⟨h, fun hne => absurd rfl hne⟩
  | cons w ws ih =>
    intro s mem h
    obtain ⟨h1, h2, h3⟩ := loopStep_inv s mem w h
    obtain ⟨ih1, ih2⟩ := ih (loopStep s mem w).1 (loopStep s mem w).2 h1
    refine ⟨ih1, fun _ => ?_⟩
    by_cases hws : ws = []
    · subst hws
      refine ⟨(stepWindow mem w).1, ?_, h3⟩
      show (loopStep s mem w).1.trades.getLast? = some (stepWindow mem w).1
      rw [h2]
      exact List.getLast?_concat _
    · exact ih2 hws

/-- C10: after any nonempty run of recorded windows starting with the
stored balance equal to the in-memory balance (as run() establishes at
startup), the stored balance equals the balance_after of the most recently
appended trade record. -/
theorem C10_store_matches_last_record (s : StateStore) (mem : ℚ)
    (h : s.balance = some mem) (w : WindowInput) (ws : List WindowInput) :
    ∃ r : TradeRecord,
      (runLoop s mem (w :: ws)).1.trades.getLast? = some r ∧
      r.balance_after = (runLoop s mem (w :: ws)).2 ∧
      (runLoop s mem (w :: ws)).1.balance = some r.balance_after := by
  obtain ⟨h1, h2⟩ := runLoop_inv (w :: ws) s mem h
  obtain ⟨r, hr1, hr2⟩ := h2 (by simp)
  exact ⟨r, hr1, hr2, by rw [hr2]; exact h1⟩

/-- Witness for C10_store_matches_last_record: one skip window recorded on
a fresh store holding balance 100. -/
theorem C10_store_matches_last_record_witness :
    (⟨some 100, []⟩ : StateStore).balance = some 100 ∧
    ∃ r : TradeRecord,
      (runLoop ⟨some 100, []⟩ 100 [⟨0, 50000, 50002, 50002⟩]).1.trades.getLast? =
        some r ∧
      r.balance_after = (runLoop ⟨some 100, []⟩ 100 [⟨0, 50000, 50002, 50002⟩]).2 ∧
      (runLoop ⟨some 100, []⟩ 100 [⟨0, 50000, 50002, 50002⟩]).1.balance =
        some r.balance_after :=
  ⟨rfl, C10_store_matches_last_record ⟨some 100, []⟩ 100 rfl
    ⟨0, 50000, 50002, 50002⟩ []⟩

end MakerBot
